import Mathlib

/-!
Verification of the WebSocket chat client in `src/static/script.js`
(connection lifecycle state machine with ping/pong heartbeat and
automatic reconnect).

The JavaScript is embedded shallowly: the mutable globals of the script
(`conn`, `pingInterval`, `pongReceived`, `pongTimeoutId`) together with
the browser-visible effects (log lines, sent frames, `close(..)` calls,
pending timers of `setInterval`/`setTimeout`, socket ready states, the
text input field) form one state record `St`.  Each JavaScript function
and event handler is a state transformer transcribed line by line from
the source.  Timers live in a pending list with absolute due times;
`stepFire` fires the earliest-due timer, exactly as the single-threaded
browser event loop does.  Traces (`runTrace`) interleave transport
notifications, timer firings and user actions.
-/

namespace WsClient

/-- readyState of a WebSocket object. -/
inductive ReadyState where
  | connecting
  | opened
  | closing
  | closed
deriving DecidableEq, Repr

/-- Kind of a scheduled browser timer in this script: the recurring
heartbeat interval (`setInterval(sendPing, PING_INTERVAL_MS)`), the
one-shot pong timeout, or the one-shot reconnect (`setTimeout(connect, 5000)`). -/
inductive TKind where
  | interval
  | pongTimeout
  | reconnect
deriving DecidableEq, Repr

/-- A pending browser timer: its id (as returned by setInterval/setTimeout),
its kind, and the absolute time at which it is next due. -/
structure Timer where
  id : Nat
  kind : TKind
  due : Nat
deriving DecidableEq, Repr

/-- The whole observable state of the script: its global variables plus
the browser effects it performs. -/
structure St where
  now : Nat
  /-- the global `conn` variable: id of the current WebSocket, or null. -/
  conn : Option Nat
  /-- readyState of every WebSocket created so far, keyed by id. -/
  socks : List (Nat × ReadyState)
  /-- the global `pingInterval` variable (a timer id or null). -/
  pingInterval : Option Nat
  /-- the global `pongReceived` variable. -/
  pongReceived : Bool
  /-- the global `pongTimeoutId` variable (a timer id or null). -/
  pongTimeoutId : Option Nat
  /-- timers currently pending in the browser event loop. -/
  pending : List Timer
  nextTimerId : Nat
  nextSockId : Nat
  /-- the log, newest line first (the script prepends). -/
  log : List String
  /-- frames handed to the transport: (time, socket id, payload). -/
  sentFrames : List (Nat × Nat × String)
  /-- calls to close(): (time, socket id, optional (code, reason)). -/
  closeCalls : List (Nat × Nat × Option (Nat × String))
  uiStatus : String
  /-- contents of the #text input field. -/
  textField : String
  /-- set when a handler dereferences null (uncaught TypeError). -/
  crashed : Bool
deriving DecidableEq, Repr

def PING_INTERVAL_MS : Nat := 60000
def PONG_TIMEOUT_MS : Nat := 5000
def RECONNECT_DELAY_MS : Nat := 5000

/-- Effect of `log(msg)` on the log list: prepend, then trim to 100 entries. -/
def logList (m : String) (l : List String) : List String :=
  if (m :: l).length > 100 then (m :: l).dropLast else m :: l

/-- The `log` function of the script. -/
def logMsg (m : String) (s : St) : St :=
  { s with log := logList m s.log }

/-- readyState lookup for a socket id in a socket table. -/
def sockState (socks : List (Nat × ReadyState)) (w : Nat) : ReadyState :=
  match socks.find? (fun p => p.1 == w) with
  | some p => p.2
  | none => ReadyState.closed

def setSock (w : Nat) (r : ReadyState) (s : St) : St :=
  { s with socks := s.socks.map (fun p => if p.1 == w then (p.1, r) else p) }

/-- clearTimeout / clearInterval on a timer id: drop it from the pending list. -/
def clearTimer (i : Nat) (s : St) : St :=
  { s with pending := s.pending.filter (fun t => t.id != i) }

/-- The `stopPingPong` function: cancel and null out both timer handles. -/
def stopPingPong (s : St) : St :=
  let s1 :=
    match s.pingInterval with
    | some i => { clearTimer i s with pingInterval := none }
    | none => s
  match s1.pongTimeoutId with
  | some i => { clearTimer i s1 with pongTimeoutId := none }
  | none => s1

/-- The `startPingPong` function: stop, then `setInterval(sendPing, PING_INTERVAL_MS)`. -/
def startPingPong (s : St) : St :=
  let s1 := stopPingPong s
  { s1 with
      pending := s1.pending ++ [⟨s1.nextTimerId, TKind.interval, s1.now + PING_INTERVAL_MS⟩],
      pingInterval := some s1.nextTimerId,
      nextTimerId := s1.nextTimerId + 1 }

/-- `ws.send(payload)`: delivers the frame when the socket is open
(the browser drops it otherwise). -/
def wsSend (w : Nat) (payload : String) (s : St) : St :=
  if sockState s.socks w = ReadyState.opened then
    { s with sentFrames := s.sentFrames ++ [(s.now, w, payload)] }
  else s

/-- `ws.close(code, reason)` with explicit code and reason. -/
def wsCloseCode (w : Nat) (code : Nat) (reason : String) (s : St) : St :=
  setSock w ReadyState.closing
    { s with closeCalls := s.closeCalls ++ [(s.now, w, some (code, reason))] }

/-- plain `ws.close()`. -/
def wsClose (w : Nat) (s : St) : St :=
  setSock w ReadyState.closing
    { s with closeCalls := s.closeCalls ++ [(s.now, w, none)] }

/-- The `update_ui` function (status text derived from `conn`). -/
def update_ui (s : St) : St :=
  match s.conn with
  | none => { s with uiStatus := "disconnected" }
  | some _ => { s with uiStatus := "connected" }

/-- The `sendPing` function: if `conn && conn.readyState === WebSocket.OPEN`,
send the literal frame "ping", set `pongReceived = false`, and arm the
one-shot pong timeout. -/
def sendPing (s : St) : St :=
  match s.conn with
  | some w =>
    if sockState s.socks w = ReadyState.opened then
      let s1 := { wsSend w "ping" s with pongReceived := false }
      { s1 with
          pending := s1.pending ++ [⟨s1.nextTimerId, TKind.pongTimeout, s1.now + PONG_TIMEOUT_MS⟩],
          pongTimeoutId := some s1.nextTimerId,
          nextTimerId := s1.nextTimerId + 1 }
    else s
  | none => s

/-- Body of the pong-timeout callback armed inside `sendPing`:
`if (!pongReceived) { log(...); conn.close(1008, "Pong timeout"); }`.
The callback reads the global `conn`; a null `conn` would be a TypeError. -/
def pongTimeoutCb (s : St) : St :=
  if s.pongReceived then s
  else
    let s1 := logMsg "Pong timeout! Disconnecting..." s
    match s1.conn with
    | some w => wsCloseCode w 1008 "Pong timeout" s1
    | none => { s1 with crashed := true }

/-- The `conn.onopen` handler body. -/
def onopenH (s : St) : St :=
  let s1 := logMsg "Connected." s
  let s2 := { s1 with pongReceived := true }
  update_ui (startPingPong s2)

/-- The `conn.onmessage` handler body: log the frame, then the pong check.
Note: `clearTimeout(pongTimeoutId)` does not null the variable. -/
def onmessageH (data : String) (s : St) : St :=
  let s1 := logMsg ("Received: " ++ data) s
  if data = "pong" then
    let s2 :=
      match s1.pongTimeoutId with
      | some i => clearTimer i s1
      | none => s1
    { s2 with pongReceived := true }
  else s1

/-- The `conn.onclose` handler body: log, null `conn`, stop the heartbeat,
update the UI, and `setTimeout(connect, 5000)`. -/
def oncloseH (code : Nat) (s : St) : St :=
  let s1 := logMsg ("Disconnected. Code: " ++ toString code) s
  let s2 := update_ui (stopPingPong { s1 with conn := none })
  { s2 with
      pending := s2.pending ++ [⟨s2.nextTimerId, TKind.reconnect, s2.now + RECONNECT_DELAY_MS⟩],
      nextTimerId := s2.nextTimerId + 1 }

/-- The `conn.onerror` handler body: log a generic line and stop the heartbeat. -/
def onerrorH (s : St) : St :=
  stopPingPong (logMsg "WebSocket Error occurred." s)

/-- The `disconnect` function. -/
def disconnect (s : St) : St :=
  match s.conn with
  | some w =>
    let s1 := logMsg "Disconnecting..." s
    let s2 := { wsClose w s1 with conn := none }
    update_ui (stopPingPong s2)
  | none => s

/-- The `connect` function: tear down any current connection first, then
create a new WebSocket and make it current. -/
def connect (s : St) : St :=
  let s1 := disconnect s
  let w := s1.nextSockId
  logMsg "Connecting..."
    { s1 with
        nextSockId := w + 1,
        socks := (w, ReadyState.connecting) :: s1.socks,
        conn := some w }

/-- JavaScript's `String.prototype.trim`: strip leading and trailing
whitespace (kernel-computable model of `text.trim()`). -/
def jsTrim (t : String) : String :=
  ⟨((t.data.dropWhile Char.isWhitespace).reverse.dropWhile Char.isWhitespace).reverse⟩

/-- The `$('#send').click` handler: read the text field; empty-after-trim
is a silent no-op; otherwise log, then `conn.send(text)` (a TypeError when
`conn` is null), then clear the field. -/
def sendClick (s : St) : St :=
  let text := s.textField
  if jsTrim text = "" then s
  else
    let s1 := logMsg ("Sending: " ++ text) s
    match s1.conn with
    | some w => { wsSend w text s1 with textField := "" }
    | none => { s1 with crashed := true }

/-- Transport notifications delivered by the browser for a given socket.
The handlers the script installed read only the shared globals, so a
notification from any socket runs the same body. -/
inductive Ev where
  | openEv (w : Nat)
  | msgEv (w : Nat) (data : String)
  | closeEv (w : Nat) (code : Nat)
  | errEv (w : Nat)
deriving DecidableEq, Repr

/-- Deliver a transport notification: the browser first updates the
socket's readyState, then runs the installed handler body. -/
def deliver (e : Ev) (s : St) : St :=
  match e with
  | Ev.openEv w => onopenH (setSock w ReadyState.opened s)
  | Ev.msgEv _ data => onmessageH data s
  | Ev.closeEv w code => oncloseH code (setSock w ReadyState.closed s)
  | Ev.errEv _ => onerrorH s

/-- Earliest-due pending timer (ties go to the earlier-armed one,
as in the browser event loop). -/
def earliest? : List Timer → Option Timer
  | [] => none
  | t :: ts =>
    match earliest? ts with
    | none => some t
    | some u => if u.due < t.due then some u else some t

/-- Re-arm a recurring `setInterval` timer one period later. -/
def rearmT (i : Nat) (u : Timer) : Timer :=
  if u.id == i then { u with due := u.due + PING_INTERVAL_MS } else u

/-- Fire one timer: a `setInterval` timer is re-armed one period later
and runs `sendPing`; the one-shot timers are removed and run their
callback (`pongTimeoutCb`, or `connect` for the reconnect timer). -/
def fireTimer (t : Timer) (s : St) : St :=
  match t.kind with
  | TKind.interval =>
      sendPing { s with pending := s.pending.map (rearmT t.id) }
  | TKind.pongTimeout => pongTimeoutCb (clearTimer t.id s)
  | TKind.reconnect => connect (clearTimer t.id s)

/-- Let the event loop fire the earliest-due pending timer, advancing the
clock to its due time. -/
def stepFire (s : St) : St :=
  match earliest? s.pending with
  | some t => fireTimer t { s with now := t.due }
  | none => s

/-- One step of a system trace: a transport notification, a timer firing,
or a user action (`connect()`, `disconnect()`, typing, clicking Send). -/
inductive Step where
  | ev (e : Ev)
  | fire
  | connCall
  | disconnCall
  | typeText (t : String)
  | sendClickStep
deriving DecidableEq, Repr

def runStep (st : Step) (s : St) : St :=
  match st with
  | Step.ev e => deliver e s
  | Step.fire => stepFire s
  | Step.connCall => connect s
  | Step.disconnCall => disconnect s
  | Step.typeText t => { s with textField := t }
  | Step.sendClickStep => sendClick s

def runTrace (tr : List Step) (s : St) : St :=
  tr.foldl (fun s st => runStep st s) s

/-- State of the page after load (`update_ui()` has run once). -/
def init : St :=
  { now := 0, conn := none, socks := [], pingInterval := none,
    pongReceived := true, pongTimeoutId := none, pending := [],
    nextTimerId := 1, nextSockId := 0, log := [], sentFrames := [],
    closeCalls := [], uiStatus := "disconnected", textField := "",
    crashed := false }

/-- Heartbeat timers (interval and pong timeout) currently pending. -/
def hbPending (s : St) : List Timer :=
  s.pending.filter (fun t => t.kind != TKind.reconnect)

/-- Pong-timeout timers currently pending. -/
def ptPending (s : St) : List Timer :=
  s.pending.filter (fun t => t.kind == TKind.pongTimeout)

/-- Reconnect timers currently pending. -/
def reconPending (s : St) : List Timer :=
  s.pending.filter (fun t => t.kind == TKind.reconnect)

/-- Scenario trace: page load, connect(), transport opens. -/
def openTrace : List Step := [Step.connCall, Step.ev (Ev.openEv 0)]

/-- Scenario trace: connect, open, then the first heartbeat tick fires
(at t = 60000), sending "ping" and arming the pong timeout. -/
def pingSentTrace : List Step := [Step.connCall, Step.ev (Ev.openEv 0), Step.fire]

/-- Scenario trace: connect, open, server silent; both the heartbeat tick
and then the pong timeout fire. -/
def silentTrace : List Step :=
  [Step.connCall, Step.ev (Ev.openEv 0), Step.fire, Step.fire]

/-- Scenario trace: two rapid connect() calls, then the second (current)
transport opens; socket 0 is the superseded transport. -/
def staleTracePre : List Step :=
  [Step.connCall, Step.connCall, Step.ev (Ev.openEv 1)]

/-- staleTracePre followed by the late close notification of the
superseded socket 0. -/
def staleTrace : List Step :=
  staleTracePre ++ [Step.ev (Ev.closeEv 0 1006)]

/-- The filter `clearTimeout`/`clearInterval` applies for a (possibly null)
timer handle: keep a timer unless its id is the one being cleared. -/
def keepB (o : Option Nat) (t : Timer) : Bool :=
  match o with
  | some i => t.id != i
  | none => true

/-- The pending list after `stopPingPong`: both tracked handles cleared. -/
def stoppedPending (s : St) : List Timer :=
  (s.pending.filter (keepB s.pingInterval)).filter (keepB s.pongTimeoutId)

/-- The state an interval-timer firing hands to `sendPing`: clock advanced
to the due time and the interval re-armed one period later. -/
def rearmState (t : Timer) (s : St) : St :=
  { s with now := t.due, pending := s.pending.map (rearmT t.id) }

/-- The reachable-state invariant of the script's timer bookkeeping:
every pending heartbeat timer is the one tracked by the corresponding
global handle, a pending pong timeout is always due strictly before the
pending interval tick, timer ids are allocated freshly, pending reconnect
timers never collide with a tracked heartbeat handle, and a pong timeout
is pending only while `pongReceived` is false. -/
structure Inv (s : St) : Prop where
  ptTracked : ∀ t ∈ s.pending, t.kind = TKind.pongTimeout → s.pongTimeoutId = some t.id
  ivTracked : ∀ t ∈ s.pending, t.kind = TKind.interval → s.pingInterval = some t.id
  ptBeforeIv : ∀ t ∈ s.pending, ∀ u ∈ s.pending,
      t.kind = TKind.pongTimeout → u.kind = TKind.interval → t.due < u.due
  idsLt : ∀ t ∈ s.pending, t.id < s.nextTimerId
  ivLt : ∀ i, s.pingInterval = some i → i < s.nextTimerId
  ptLt : ∀ i, s.pongTimeoutId = some i → i < s.nextTimerId
  reconFree : ∀ t ∈ s.pending, t.kind = TKind.reconnect →
      s.pingInterval ≠ some t.id ∧ s.pongTimeoutId ≠ some t.id
  ptAwaits : ∀ t ∈ s.pending, t.kind = TKind.pongTimeout → s.pongReceived = false


theorem keepB_none : keepB none = fun _ => true := rfl

theorem keepB_some (i : Nat) : keepB (some i) = fun t => t.id != i := rfl

theorem keepB_eq_true (o : Option Nat) (t : Timer) :
    keepB o t = true ↔ o ≠ some t.id := by
  cases o with
  | none => simp [keepB]
  | some i => simp [keepB]; exact ne_comm

theorem mem_stoppedPending (s : St) (t : Timer) :
    t ∈ stoppedPending s ↔
      t ∈ s.pending ∧ s.pingInterval ≠ some t.id ∧ s.pongTimeoutId ≠ some t.id := by
  simp [stoppedPending, List.mem_filter, keepB_eq_true, and_assoc]
  intro _
  constructor <;> rintro ⟨a, b⟩ <;> exact ⟨b, a⟩

theorem stopPingPong_fields (s : St) :
    (stopPingPong s).pending = stoppedPending s ∧
    (stopPingPong s).pingInterval = none ∧
    (stopPingPong s).pongTimeoutId = none ∧
    (stopPingPong s).nextTimerId = s.nextTimerId ∧
    (stopPingPong s).pongReceived = s.pongReceived ∧
    (stopPingPong s).now = s.now ∧
    (stopPingPong s).conn = s.conn ∧
    (stopPingPong s).log = s.log ∧
    (stopPingPong s).sentFrames = s.sentFrames ∧
    (stopPingPong s).closeCalls = s.closeCalls ∧
    (stopPingPong s).socks = s.socks ∧
    (stopPingPong s).nextSockId = s.nextSockId ∧
    (stopPingPong s).uiStatus = s.uiStatus ∧
    (stopPingPong s).textField = s.textField ∧
    (stopPingPong s).crashed = s.crashed := by
  unfold stopPingPong clearTimer stoppedPending
  cases h1 : s.pingInterval <;> cases h2 : s.pongTimeoutId <;>
    simp [h1, h2, keepB]

theorem update_ui_fields (s : St) :
    (update_ui s).pending = s.pending ∧
    (update_ui s).pingInterval = s.pingInterval ∧
    (update_ui s).pongTimeoutId = s.pongTimeoutId ∧
    (update_ui s).nextTimerId = s.nextTimerId ∧
    (update_ui s).pongReceived = s.pongReceived ∧
    (update_ui s).now = s.now ∧
    (update_ui s).conn = s.conn ∧
    (update_ui s).log = s.log ∧
    (update_ui s).sentFrames = s.sentFrames ∧
    (update_ui s).closeCalls = s.closeCalls ∧
    (update_ui s).socks = s.socks ∧
    (update_ui s).nextSockId = s.nextSockId ∧
    (update_ui s).textField = s.textField ∧
    (update_ui s).crashed = s.crashed := by
  unfold update_ui
  cases h : s.conn <;> simp [h]

theorem startPingPong_fields (s : St) :
    (startPingPong s).pending
        = stoppedPending s ++ [⟨s.nextTimerId, TKind.interval, s.now + PING_INTERVAL_MS⟩] ∧
    (startPingPong s).pingInterval = some s.nextTimerId ∧
    (startPingPong s).pongTimeoutId = none ∧
    (startPingPong s).nextTimerId = s.nextTimerId + 1 ∧
    (startPingPong s).pongReceived = s.pongReceived ∧
    (startPingPong s).now = s.now ∧
    (startPingPong s).conn = s.conn ∧
    (startPingPong s).log = s.log := by
  unfold startPingPong
  simp [stopPingPong_fields]

theorem onopenH_fields (s : St) :
    (onopenH s).pending
        = stoppedPending s ++ [⟨s.nextTimerId, TKind.interval, s.now + PING_INTERVAL_MS⟩] ∧
    (onopenH s).pingInterval = some s.nextTimerId ∧
    (onopenH s).pongTimeoutId = none ∧
    (onopenH s).nextTimerId = s.nextTimerId + 1 ∧
    (onopenH s).pongReceived = true ∧
    (onopenH s).now = s.now ∧
    (onopenH s).conn = s.conn ∧
    (onopenH s).log = logList "Connected." s.log := by
  unfold onopenH logMsg
  simp [update_ui_fields, startPingPong_fields]
  rfl

theorem onmessageH_pong (s : St) (data : String) (h : data = "pong") :
    (onmessageH data s).log = logList ("Received: " ++ data) s.log ∧
    (onmessageH data s).pending = s.pending.filter (keepB s.pongTimeoutId) ∧
    (onmessageH data s).pongReceived = true ∧
    (onmessageH data s).pongTimeoutId = s.pongTimeoutId ∧
    (onmessageH data s).pingInterval = s.pingInterval ∧
    (onmessageH data s).nextTimerId = s.nextTimerId ∧
    (onmessageH data s).now = s.now ∧
    (onmessageH data s).conn = s.conn ∧
    (onmessageH data s).sentFrames = s.sentFrames := by
  subst h
  unfold onmessageH logMsg clearTimer
  cases h2 : s.pongTimeoutId <;> simp [h2, keepB_none, keepB_some, List.filter_true]

theorem onmessageH_ne (s : St) (data : String) (h : data ≠ "pong") :
    onmessageH data s = logMsg ("Received: " ++ data) s := by
  simp [onmessageH, h]

theorem oncloseH_fields (code : Nat) (s : St) :
    (oncloseH code s).log = logList ("Disconnected. Code: " ++ toString code) s.log ∧
    (oncloseH code s).conn = none ∧
    (oncloseH code s).pingInterval = none ∧
    (oncloseH code s).pongTimeoutId = none ∧
    (oncloseH code s).pending
        = stoppedPending s ++ [⟨s.nextTimerId, TKind.reconnect, s.now + RECONNECT_DELAY_MS⟩] ∧
    (oncloseH code s).nextTimerId = s.nextTimerId + 1 ∧
    (oncloseH code s).pongReceived = s.pongReceived ∧
    (oncloseH code s).now = s.now ∧
    (oncloseH code s).sentFrames = s.sentFrames ∧
    (oncloseH code s).closeCalls = s.closeCalls := by
  unfold oncloseH logMsg
  simp [update_ui_fields, stopPingPong_fields]
  rfl

theorem onerrorH_fields (s : St) :
    (onerrorH s).log = logList "WebSocket Error occurred." s.log ∧
    (onerrorH s).pending = stoppedPending s ∧
    (onerrorH s).pingInterval = none ∧
    (onerrorH s).pongTimeoutId = none ∧
    (onerrorH s).nextTimerId = s.nextTimerId ∧
    (onerrorH s).pongReceived = s.pongReceived ∧
    (onerrorH s).now = s.now ∧
    (onerrorH s).conn = s.conn ∧
    (onerrorH s).sentFrames = s.sentFrames ∧
    (onerrorH s).closeCalls = s.closeCalls := by
  unfold onerrorH logMsg
  simp [stopPingPong_fields]
  show stoppedPending _ = stoppedPending s
  rfl

theorem disconnect_none (s : St) (h : s.conn = none) : disconnect s = s := by
  simp [disconnect, h]

theorem disconnect_some (s : St) (w : Nat) (h : s.conn = some w) :
    (disconnect s).conn = none ∧
    (disconnect s).pingInterval = none ∧
    (disconnect s).pongTimeoutId = none ∧
    (disconnect s).pending = stoppedPending s ∧
    (disconnect s).nextTimerId = s.nextTimerId ∧
    (disconnect s).pongReceived = s.pongReceived ∧
    (disconnect s).now = s.now ∧
    (disconnect s).log = logList "Disconnecting..." s.log ∧
    (disconnect s).closeCalls = s.closeCalls ++ [(s.now, w, none)] ∧
    (disconnect s).sentFrames = s.sentFrames := by
  unfold disconnect logMsg wsClose setSock
  simp [h, update_ui_fields, stopPingPong_fields]
  show stoppedPending _ = stoppedPending s
  rfl

theorem connect_fields (s : St) :
    (connect s).pending = (disconnect s).pending ∧
    (connect s).pingInterval = (disconnect s).pingInterval ∧
    (connect s).pongTimeoutId = (disconnect s).pongTimeoutId ∧
    (connect s).nextTimerId = (disconnect s).nextTimerId ∧
    (connect s).pongReceived = (disconnect s).pongReceived ∧
    (connect s).now = (disconnect s).now ∧
    (connect s).conn = some (disconnect s).nextSockId ∧
    (connect s).sentFrames = (disconnect s).sentFrames := by
  unfold connect logMsg
  simp

theorem sendPing_open (s : St) (w : Nat)
    (h1 : s.conn = some w) (h2 : sockState s.socks w = ReadyState.opened) :
    (sendPing s).sentFrames = s.sentFrames ++ [(s.now, w, "ping")] ∧
    (sendPing s).pongReceived = false ∧
    (sendPing s).pending
        = s.pending ++ [⟨s.nextTimerId, TKind.pongTimeout, s.now + PONG_TIMEOUT_MS⟩] ∧
    (sendPing s).pongTimeoutId = some s.nextTimerId ∧
    (sendPing s).pingInterval = s.pingInterval ∧
    (sendPing s).nextTimerId = s.nextTimerId + 1 ∧
    (sendPing s).now = s.now ∧
    (sendPing s).conn = s.conn ∧
    (sendPing s).log = s.log := by
  unfold sendPing wsSend
  simp [h1, h2]

theorem sendPing_noConn (s : St) (h : s.conn = none) : sendPing s = s := by
  simp [sendPing, h]

theorem sendPing_notOpen (s : St) (w : Nat)
    (h1 : s.conn = some w) (h2 : sockState s.socks w ≠ ReadyState.opened) :
    sendPing s = s := by
  simp [sendPing, h1, h2]

theorem pongTimeoutCb_timerFields (s : St) :
    (pongTimeoutCb s).pending = s.pending ∧
    (pongTimeoutCb s).pingInterval = s.pingInterval ∧
    (pongTimeoutCb s).pongTimeoutId = s.pongTimeoutId ∧
    (pongTimeoutCb s).nextTimerId = s.nextTimerId ∧
    (pongTimeoutCb s).pongReceived = s.pongReceived := by
  unfold pongTimeoutCb logMsg wsCloseCode setSock
  cases h1 : s.pongReceived <;> cases h2 : s.conn <;> simp [h1, h2]

theorem wsSend_fields (w : Nat) (p : String) (s : St) :
    (wsSend w p s).pending = s.pending ∧
    (wsSend w p s).pingInterval = s.pingInterval ∧
    (wsSend w p s).pongTimeoutId = s.pongTimeoutId ∧
    (wsSend w p s).nextTimerId = s.nextTimerId ∧
    (wsSend w p s).pongReceived = s.pongReceived ∧
    (wsSend w p s).conn = s.conn ∧
    (wsSend w p s).log = s.log ∧
    (wsSend w p s).now = s.now ∧
    (wsSend w p s).textField = s.textField ∧
    (wsSend w p s).crashed = s.crashed := by
  unfold wsSend
  split <;> simp

theorem sendClick_timerFields (s : St) :
    (sendClick s).pending = s.pending ∧
    (sendClick s).pingInterval = s.pingInterval ∧
    (sendClick s).pongTimeoutId = s.pongTimeoutId ∧
    (sendClick s).nextTimerId = s.nextTimerId ∧
    (sendClick s).pongReceived = s.pongReceived := by
  unfold sendClick logMsg
  by_cases h1 : jsTrim s.textField = "" <;> cases h2 : s.conn <;>
    simp [h1, h2, wsSend_fields]

theorem sendClick_empty (s : St) (h : jsTrim s.textField = "") : sendClick s = s := by
  simp [sendClick, h]

theorem sendClick_send (s : St) (w : Nat) (h : jsTrim s.textField ≠ "")
    (h2 : s.conn = some w) (h3 : sockState s.socks w = ReadyState.opened) :
    (sendClick s).sentFrames = s.sentFrames ++ [(s.now, w, s.textField)] ∧
    (sendClick s).log = logList ("Sending: " ++ s.textField) s.log ∧
    (sendClick s).textField = "" ∧
    (sendClick s).crashed = s.crashed ∧
    (sendClick s).conn = s.conn := by
  unfold sendClick logMsg wsSend
  simp [h, h2, h3]

theorem sendClick_nullConn (s : St) (h : jsTrim s.textField ≠ "") (h2 : s.conn = none) :
    (sendClick s).crashed = true ∧
    (sendClick s).sentFrames = s.sentFrames ∧
    (sendClick s).textField = s.textField ∧
    (sendClick s).log = logList ("Sending: " ++ s.textField) s.log := by
  unfold sendClick logMsg
  simp [h, h2]

theorem setSock_fields (w : Nat) (r : ReadyState) (s : St) :
    (setSock w r s).pending = s.pending ∧
    (setSock w r s).pingInterval = s.pingInterval ∧
    (setSock w r s).pongTimeoutId = s.pongTimeoutId ∧
    (setSock w r s).nextTimerId = s.nextTimerId ∧
    (setSock w r s).pongReceived = s.pongReceived ∧
    (setSock w r s).conn = s.conn ∧
    (setSock w r s).log = s.log ∧
    (setSock w r s).now = s.now := by
  unfold setSock
  simp

theorem rearmT_id (i : Nat) (u : Timer) : (rearmT i u).id = u.id := by
  unfold rearmT; split <;> rfl

theorem rearmT_kind (i : Nat) (u : Timer) : (rearmT i u).kind = u.kind := by
  unfold rearmT; split <;> rfl

theorem rearmT_due_of_eq (i : Nat) (u : Timer) (h : u.id = i) :
    (rearmT i u).due = u.due + PING_INTERVAL_MS := by
  unfold rearmT
  simp [h]

theorem fireTimer_interval_eq (t : Timer) (s : St) (hk : t.kind = TKind.interval) :
    fireTimer t { s with now := t.due } = sendPing (rearmState t s) := by
  simp only [fireTimer, hk]
  rfl

theorem earliest?_none {l : List Timer} (h : earliest? l = none) : l = [] := by
  cases l with
  | nil => rfl
  | cons a as =>
    rw [earliest?] at h
    cases he : earliest? as <;> rw [he] at h <;> simp at h
    split at h <;> simp at h

theorem earliest?_mem {l : List Timer} {t : Timer} (h : earliest? l = some t) : t ∈ l := by
  induction l with
  | nil => simp [earliest?] at h
  | cons a as ih =>
    rw [earliest?] at h
    cases he : earliest? as with
    | none =>
      rw [he] at h
      simp at h
      simp [h]
    | some u =>
      rw [he] at h
      simp only [] at h
      by_cases hd : u.due < a.due
      · rw [if_pos hd] at h
        simp at h
        subst h
        exact List.mem_cons_of_mem _ (ih he)
      · rw [if_neg hd] at h
        simp at h
        simp [h]

theorem earliest?_min {l : List Timer} {t : Timer} (h : earliest? l = some t) :
    ∀ u ∈ l, t.due ≤ u.due := by
  induction l generalizing t with
  | nil => simp
  | cons a as ih =>
    rw [earliest?] at h
    cases he : earliest? as with
    | none =>
      rw [he] at h
      simp at h
      subst h
      have hnil : as = [] := earliest?_none he
      subst hnil
      simp
    | some v =>
      rw [he] at h
      simp only [] at h
      by_cases hd : v.due < a.due
      · rw [if_pos hd] at h
        simp at h
        subst h
        intro u hu
        rcases List.mem_cons.1 hu with rfl | hu
        · exact Nat.le_of_lt hd
        · exact ih he u hu
      · rw [if_neg hd] at h
        simp at h
        subst h
        intro u hu
        rcases List.mem_cons.1 hu with rfl | hu
        · exact Nat.le_refl _
        · exact Nat.le_trans (Nat.le_of_not_lt hd) (ih he u hu)


theorem inv_of_fields (s s' : St) (h : Inv s)
    (e1 : s'.pending = s.pending) (e2 : s'.pingInterval = s.pingInterval)
    (e3 : s'.pongTimeoutId = s.pongTimeoutId) (e4 : s'.nextTimerId = s.nextTimerId)
    (e5 : s'.pongReceived = s.pongReceived) : Inv s' := by
  constructor
  · rw [e1, e3]; exact h.ptTracked
  · rw [e1, e2]; exact h.ivTracked
  · rw [e1]; exact h.ptBeforeIv
  · rw [e1, e4]; exact h.idsLt
  · rw [e2, e4]; exact h.ivLt
  · rw [e3, e4]; exact h.ptLt
  · rw [e1, e2, e3]; exact h.reconFree
  · rw [e1, e5]; exact h.ptAwaits

theorem stoppedPending_kind (s : St) (h : Inv s) :
    ∀ t ∈ stoppedPending s, t.kind = TKind.reconnect := by
  intro t ht
  obtain ⟨hmem, hpi, hpt⟩ := (mem_stoppedPending s t).1 ht
  cases hk : t.kind with
  | interval => exact absurd (h.ivTracked t hmem hk) hpi
  | pongTimeout => exact absurd (h.ptTracked t hmem hk) hpt
  | reconnect => rfl

theorem inv_teardown (s s' : St) (h : Inv s) (add : List Timer)
    (hadd : ∀ t ∈ add, t.kind = TKind.reconnect ∧ t.id < s'.nextTimerId)
    (hp : s'.pending = stoppedPending s ++ add)
    (hpi : s'.pingInterval = none) (hpt : s'.pongTimeoutId = none)
    (hnt : s.nextTimerId ≤ s'.nextTimerId) : Inv s' := by
  have hkind : ∀ t ∈ s'.pending, t.kind = TKind.reconnect := by
    intro t ht
    rw [hp] at ht
    rcases List.mem_append.1 ht with h1 | h1
    · exact stoppedPending_kind s h t h1
    · exact (hadd t h1).1
  constructor
  · intro t ht hk
    have hr := hkind t ht
    rw [hk] at hr
    simp at hr
  · intro t ht hk
    have hr := hkind t ht
    rw [hk] at hr
    simp at hr
  · intro t ht u hu hk hk2
    have hr := hkind t ht
    rw [hk] at hr
    simp at hr
  · intro t ht
    rw [hp] at ht
    rcases List.mem_append.1 ht with h1 | h1
    · have hmem := ((mem_stoppedPending s t).1 h1).1
      exact Nat.lt_of_lt_of_le (h.idsLt t hmem) hnt
    · exact (hadd t h1).2
  · intro i hi
    rw [hpi] at hi
    simp at hi
  · intro i hi
    rw [hpt] at hi
    simp at hi
  · intro t ht hk
    rw [hpi, hpt]
    exact ⟨by simp, by simp⟩
  · intro t ht hk
    have hr := hkind t ht
    rw [hk] at hr
    simp at hr

theorem inv_clearTimer (i : Nat) (s : St) (h : Inv s) : Inv (clearTimer i s) := by
  have hsub : ∀ t ∈ (clearTimer i s).pending, t ∈ s.pending := by
    intro t ht
    exact (List.mem_filter.1 ht).1
  constructor
  · intro t ht hk; exact h.ptTracked t (hsub t ht) hk
  · intro t ht hk; exact h.ivTracked t (hsub t ht) hk
  · intro t ht u hu hk hk2; exact h.ptBeforeIv t (hsub t ht) u (hsub u hu) hk hk2
  · intro t ht; exact h.idsLt t (hsub t ht)
  · exact h.ivLt
  · exact h.ptLt
  · intro t ht hk; exact h.reconFree t (hsub t ht) hk
  · intro t ht hk; exact h.ptAwaits t (hsub t ht) hk

theorem inv_disconnect (s : St) (h : Inv s) : Inv (disconnect s) := by
  cases hc : s.conn with
  | none =>
    rw [disconnect_none s hc]
    exact h
  | some w =>
    obtain ⟨_, hpi, hpt, hp, hnt, _, _, _, _, _⟩ := disconnect_some s w hc
    exact inv_teardown s _ h [] (by simp) (by rw [hp]; simp) hpi hpt (Nat.le_of_eq hnt.symm)

theorem inv_connect (s : St) (h : Inv s) : Inv (connect s) := by
  obtain ⟨hp, hpi, hpt, hnt, hpr, _, _, _⟩ := connect_fields s
  exact inv_of_fields (disconnect s) (connect s) (inv_disconnect s h) hp hpi hpt hnt hpr

theorem inv_onerrorH (s : St) (h : Inv s) : Inv (onerrorH s) := by
  obtain ⟨_, hp, hpi, hpt, hnt, _, _, _, _, _⟩ := onerrorH_fields s
  exact inv_teardown s _ h [] (by simp) (by rw [hp]; simp) hpi hpt (Nat.le_of_eq hnt.symm)

theorem inv_oncloseH (code : Nat) (s : St) (h : Inv s) : Inv (oncloseH code s) := by
  obtain ⟨_, _, hpi, hpt, hp, hnt, _, _, _, _⟩ := oncloseH_fields code s
  refine inv_teardown s _ h
    [⟨s.nextTimerId, TKind.reconnect, s.now + RECONNECT_DELAY_MS⟩] ?_ hp hpi hpt ?_
  · intro t ht
    simp at ht
    subst ht
    refine ⟨rfl, ?_⟩
    rw [hnt]
    simp
  · rw [hnt]
    omega

theorem inv_onopenH (s : St) (h : Inv s) : Inv (onopenH s) := by
  obtain ⟨hp, hpi, hpt, hnt, hpr, _, _, _⟩ := onopenH_fields s
  have hmem : ∀ t ∈ (onopenH s).pending,
      t ∈ stoppedPending s ∨ t = ⟨s.nextTimerId, TKind.interval, s.now + PING_INTERVAL_MS⟩ := by
    intro t ht
    rw [hp] at ht
    rcases List.mem_append.1 ht with h1 | h1
    · exact Or.inl h1
    · simp at h1
      exact Or.inr h1
  constructor
  · intro t ht hk
    rcases hmem t ht with h1 | h1
    · have hr := stoppedPending_kind s h t h1
      rw [hk] at hr
      simp at hr
    · subst h1
      simp at hk
  · intro t ht hk
    rcases hmem t ht with h1 | h1
    · have hr := stoppedPending_kind s h t h1
      rw [hk] at hr
      simp at hr
    · subst h1
      rw [hpi]
  · intro t ht u hu hk hk2
    rcases hmem t ht with h1 | h1
    · have hr := stoppedPending_kind s h t h1
      rw [hk] at hr
      simp at hr
    · subst h1
      simp at hk
  · intro t ht
    rw [hnt]
    rcases hmem t ht with h1 | h1
    · have := h.idsLt t ((mem_stoppedPending s t).1 h1).1
      omega
    · subst h1
      simp
  · intro i hi
    rw [hpi] at hi
    simp at hi
    rw [hnt]
    omega
  · intro i hi
    rw [hpt] at hi
    simp at hi
  · intro t ht hk
    rcases hmem t ht with h1 | h1
    · refine ⟨?_, ?_⟩
      · rw [hpi]
        have hid := h.idsLt t ((mem_stoppedPending s t).1 h1).1
        intro hcon
        simp at hcon
        omega
      · rw [hpt]
        simp
    · subst h1
      simp at hk
  · intro t ht hk
    rcases hmem t ht with h1 | h1
    · have hr := stoppedPending_kind s h t h1
      rw [hk] at hr
      simp at hr
    · subst h1
      simp at hk

theorem inv_onmessageH (data : String) (s : St) (h : Inv s) : Inv (onmessageH data s) := by
  by_cases hd : data = "pong"
  · obtain ⟨_, hp, hpr, hpt, hpi, hnt, _, _, _⟩ := onmessageH_pong s data hd
    have hnopt : ∀ t ∈ (onmessageH data s).pending, t.kind ≠ TKind.pongTimeout := by
      intro t ht hk
      rw [hp] at ht
      have h1 := List.mem_filter.1 ht
      have hkeep := (keepB_eq_true _ t).1 h1.2
      exact hkeep (h.ptTracked t h1.1 hk)
    constructor
    · intro t ht hk
      exact absurd hk (hnopt t ht)
    · intro t ht hk
      rw [hp] at ht
      rw [hpi]
      exact h.ivTracked t (List.mem_filter.1 ht).1 hk
    · intro t ht u hu hk hk2
      exact absurd hk (hnopt t ht)
    · intro t ht
      rw [hp] at ht
      rw [hnt]
      exact h.idsLt t (List.mem_filter.1 ht).1
    · intro i hi
      rw [hpi] at hi
      rw [hnt]
      exact h.ivLt i hi
    · intro i hi
      rw [hpt] at hi
      rw [hnt]
      exact h.ptLt i hi
    · intro t ht hk
      rw [hp] at ht
      obtain ⟨ha, hb⟩ := h.reconFree t (List.mem_filter.1 ht).1 hk
      rw [hpi, hpt]
      exact ⟨ha, hb⟩
    · intro t ht hk
      exact absurd hk (hnopt t ht)
  · rw [onmessageH_ne s data hd]
    exact inv_of_fields s _ h rfl rfl rfl rfl rfl

theorem inv_sendPing_open (s : St) (w : Nat) (h : Inv s)
    (hc : s.conn = some w) (ho : sockState s.socks w = ReadyState.opened)
    (hnopt : ∀ u ∈ s.pending, u.kind ≠ TKind.pongTimeout)
    (hiv : ∀ u ∈ s.pending, u.kind = TKind.interval → s.now + PONG_TIMEOUT_MS < u.due) :
    Inv (sendPing s) := by
  obtain ⟨_, hpr, hp, hpt, hpi, hnt, _, _, _⟩ := sendPing_open s w hc ho
  have hmem : ∀ t ∈ (sendPing s).pending,
      t ∈ s.pending ∨ t = ⟨s.nextTimerId, TKind.pongTimeout, s.now + PONG_TIMEOUT_MS⟩ := by
    intro t ht
    rw [hp] at ht
    rcases List.mem_append.1 ht with h1 | h1
    · exact Or.inl h1
    · simp at h1
      exact Or.inr h1
  constructor
  · intro t ht hk
    rcases hmem t ht with h1 | h1
    · exact absurd hk (hnopt t h1)
    · subst h1
      rw [hpt]
  · intro t ht hk
    rcases hmem t ht with h1 | h1
    · rw [hpi]
      exact h.ivTracked t h1 hk
    · subst h1
      simp at hk
  · intro t ht u hu hk hk2
    rcases hmem t ht with h1 | h1
    · exact absurd hk (hnopt t h1)
    · subst h1
      rcases hmem u hu with h2 | h2
      · exact hiv u h2 hk2
      · subst h2
        simp at hk2
  · intro t ht
    rw [hnt]
    rcases hmem t ht with h1 | h1
    · have := h.idsLt t h1
      omega
    · subst h1
      simp
  · intro i hi
    rw [hpi] at hi
    rw [hnt]
    have := h.ivLt i hi
    omega
  · intro i hi
    rw [hpt] at hi
    simp at hi
    rw [hnt]
    omega
  · intro t ht hk
    rcases hmem t ht with h1 | h1
    · obtain ⟨ha, _⟩ := h.reconFree t h1 hk
      refine ⟨?_, ?_⟩
      · rw [hpi]
        exact ha
      · rw [hpt]
        have hid := h.idsLt t h1
        intro hcon
        simp at hcon
        omega
    · subst h1
      simp at hk
  · intro t ht hk
    rw [hpr]

theorem inv_fireTimer (s : St) (t : Timer) (h : Inv s) (hmem : t ∈ s.pending)
    (hmin : ∀ u ∈ s.pending, t.due ≤ u.due) :
    Inv (fireTimer t { s with now := t.due }) := by
  cases hk : t.kind with
  | pongTimeout =>
    simp only [fireTimer, hk]
    have h0 : Inv { s with now := t.due } := inv_of_fields s _ h rfl rfl rfl rfl rfl
    have h1 := inv_clearTimer t.id _ h0
    obtain ⟨e1, e2, e3, e4, e5⟩ := pongTimeoutCb_timerFields (clearTimer t.id { s with now := t.due })
    exact inv_of_fields _ _ h1 e1 e2 e3 e4 e5
  | reconnect =>
    simp only [fireTimer, hk]
    have h0 : Inv { s with now := t.due } := inv_of_fields s _ h rfl rfl rfl rfl rfl
    exact inv_connect _ (inv_clearTimer t.id _ h0)
  | interval =>
    rw [fireTimer_interval_eq t s hk]
    have hpiv : s.pingInterval = some t.id := h.ivTracked t hmem hk
    have hnopt : ∀ u ∈ s.pending, u.kind ≠ TKind.pongTimeout := by
      intro u hu hku
      have h1 := h.ptBeforeIv u hu t hmem hku hk
      have h2 := hmin u hu
      omega
    have hallIv : ∀ u ∈ s.pending, u.kind = TKind.interval → u.id = t.id := by
      intro u hu hku
      have hx := h.ivTracked u hu hku
      rw [hpiv] at hx
      exact (Option.some.injEq _ _ ▸ hx).symm
    have hmapmem : ∀ v ∈ (rearmState t s).pending, ∃ u ∈ s.pending, rearmT t.id u = v := by
      intro v hv
      simpa using List.mem_map.1 hv
    have h1 : Inv (rearmState t s) := by
      constructor
      · intro v hv hkv
        obtain ⟨u, hu, he⟩ := hmapmem v hv
        have : u.kind = TKind.pongTimeout := by rw [← he] at hkv; rwa [rearmT_kind] at hkv
        exact absurd this (hnopt u hu)
      · intro v hv hkv
        obtain ⟨u, hu, he⟩ := hmapmem v hv
        have hku : u.kind = TKind.interval := by rw [← he] at hkv; rwa [rearmT_kind] at hkv
        have hx := h.ivTracked u hu hku
        show s.pingInterval = some v.id
        rw [← he, rearmT_id]
        exact hx
      · intro v hv u2 hu2 hkv hkv2
        obtain ⟨u, hu, he⟩ := hmapmem v hv
        have : u.kind = TKind.pongTimeout := by rw [← he] at hkv; rwa [rearmT_kind] at hkv
        exact absurd this (hnopt u hu)
      · intro v hv
        obtain ⟨u, hu, he⟩ := hmapmem v hv
        have hx := h.idsLt u hu
        show v.id < s.nextTimerId
        rw [← he, rearmT_id]
        exact hx
      · exact h.ivLt
      · exact h.ptLt
      · intro v hv hkv
        obtain ⟨u, hu, he⟩ := hmapmem v hv
        have hku : u.kind = TKind.reconnect := by rw [← he] at hkv; rwa [rearmT_kind] at hkv
        have hx := h.reconFree u hu hku
        show s.pingInterval ≠ some v.id ∧ s.pongTimeoutId ≠ some v.id
        rw [← he, rearmT_id]
        exact hx
      · intro v hv hkv
        obtain ⟨u, hu, he⟩ := hmapmem v hv
        have : u.kind = TKind.pongTimeout := by rw [← he] at hkv; rwa [rearmT_kind] at hkv
        exact absurd this (hnopt u hu)
    have hsplit : s.conn = none ∨ ∃ w, s.conn = some w := by
      cases s.conn
      · exact Or.inl rfl
      · exact Or.inr ⟨_, rfl⟩
    rcases hsplit with hc | ⟨w, hc⟩
    · rw [sendPing_noConn (rearmState t s) (show (rearmState t s).conn = none from hc)]
      exact h1
    · by_cases ho : sockState s.socks w = ReadyState.opened
      · refine inv_sendPing_open (rearmState t s) w h1
          (show (rearmState t s).conn = some w from hc)
          (show sockState (rearmState t s).socks w = ReadyState.opened from ho) ?_ ?_
        · intro v hv hkv
          obtain ⟨u, hu, he⟩ := hmapmem v hv
          have : u.kind = TKind.pongTimeout := by rw [← he] at hkv; rwa [rearmT_kind] at hkv
          exact absurd this (hnopt u hu)
        · intro v hv hkv
          obtain ⟨u, hu, he⟩ := hmapmem v hv
          have hku : u.kind = TKind.interval := by rw [← he] at hkv; rwa [rearmT_kind] at hkv
          have hid : u.id = t.id := hallIv u hu hku
          have hdue : v.due = u.due + PING_INTERVAL_MS := by
            rw [← he]
            exact rearmT_due_of_eq t.id u hid
          have hge := hmin u hu
          show (rearmState t s).now + PONG_TIMEOUT_MS < v.due
          rw [hdue]
          show t.due + PONG_TIMEOUT_MS < u.due + PING_INTERVAL_MS
          simp only [PING_INTERVAL_MS, PONG_TIMEOUT_MS]
          omega
      · rw [sendPing_notOpen (rearmState t s) w
          (show (rearmState t s).conn = some w from hc)
          (show sockState (rearmState t s).socks w ≠ ReadyState.opened from ho)]
        exact h1

theorem inv_runStep (st : Step) (s : St) (h : Inv s) : Inv (runStep st s) := by
  cases st with
  | ev e =>
    cases e with
    | openEv w =>
      have h0 : Inv (setSock w ReadyState.opened s) :=
        inv_of_fields s _ h rfl rfl rfl rfl rfl
      exact inv_onopenH _ h0
    | msgEv w data => exact inv_onmessageH data s h
    | closeEv w code =>
      have h0 : Inv (setSock w ReadyState.closed s) :=
        inv_of_fields s _ h rfl rfl rfl rfl rfl
      exact inv_oncloseH code _ h0
    | errEv w => exact inv_onerrorH s h
  | fire =>
    unfold runStep stepFire
    cases he : earliest? s.pending with
    | none => exact h
    | some t => exact inv_fireTimer s t h (earliest?_mem he) (earliest?_min he)
  | connCall => exact inv_connect s h
  | disconnCall => exact inv_disconnect s h
  | typeText t => exact inv_of_fields s _ h rfl rfl rfl rfl rfl
  | sendClickStep =>
    obtain ⟨e1, e2, e3, e4, e5⟩ := sendClick_timerFields s
    exact inv_of_fields s _ h e1 e2 e3 e4 e5

theorem inv_init : Inv init := by
  constructor <;> simp [init]

theorem runTrace_cons (st : Step) (tr : List Step) (s : St) :
    runTrace (st :: tr) s = runTrace tr (runStep st s) := rfl

theorem inv_runTrace (tr : List Step) : Inv (runTrace tr init) := by
  suffices hgen : ∀ s, Inv s → Inv (runTrace tr s) from hgen init inv_init
  induction tr with
  | nil =>
    intro s h
    exact h
  | cons st tr ih =>
    intro s h
    rw [runTrace_cons]
    exact ih _ (inv_runStep st s h)


theorem filter_nil_of_false {α : Type} (p : α → Bool) (l : List α)
    (h : ∀ a ∈ l, p a = false) : l.filter p = [] := by
  induction l with
  | nil => rfl
  | cons a as ih =>
    rw [List.filter_cons, h a (List.mem_cons_self a as)]
    simp only [Bool.false_eq_true, if_false]
    exact ih fun b hb => h b (List.mem_cons_of_mem a hb)

theorem filter_of_sub {α : Type} (p q : α → Bool) (l : List α)
    (h : ∀ a ∈ l, p a = true → q a = true) : (l.filter q).filter p = l.filter p := by
  induction l with
  | nil => rfl
  | cons a as ih =>
    have ih' := ih fun b hb hpb => h b (List.mem_cons_of_mem a hb) hpb
    by_cases hq : q a = true
    · by_cases hp : p a = true
      · simp [List.filter_cons, hq, hp, ih']
      · simp [List.filter_cons, hq, hp, ih']
    · by_cases hp : p a = true
      · exact absurd (h a (List.mem_cons_self a as) hp) hq
      · simp [List.filter_cons, hq, hp, ih']

theorem recon_stoppedPending (s : St) (h : Inv s) :
    (stoppedPending s).filter (fun t => t.kind == TKind.reconnect)
      = s.pending.filter (fun t => t.kind == TKind.reconnect) := by
  unfold stoppedPending
  rw [filter_of_sub _ (keepB s.pongTimeoutId) _ ?_, filter_of_sub _ (keepB s.pingInterval) _ ?_]
  · intro a ha hrec
    have hk : a.kind = TKind.reconnect := by simpa using hrec
    have hx := (h.reconFree a ha hk).1
    exact (keepB_eq_true _ a).2 hx
  · intro a ha hrec
    have hk : a.kind = TKind.reconnect := by simpa using hrec
    have hx := (h.reconFree a ((List.mem_filter.1 ha).1) hk).2
    exact (keepB_eq_true _ a).2 hx

theorem reconPending_close (s : St) (h : Inv s) (w code : Nat) :
    reconPending (deliver (Ev.closeEv w code) s)
      = reconPending s
          ++ [⟨s.nextTimerId, TKind.reconnect, s.now + RECONNECT_DELAY_MS⟩] := by
  have h0 : Inv (setSock w ReadyState.closed s) := inv_of_fields s _ h rfl rfl rfl rfl rfl
  obtain ⟨_, _, _, _, hp, _, _, _, _, _⟩ :=
    oncloseH_fields code (setSock w ReadyState.closed s)
  show reconPending (oncloseH code (setSock w ReadyState.closed s)) = _
  unfold reconPending
  rw [hp, List.filter_append, recon_stoppedPending _ h0]
  simp only [List.filter_cons, List.filter_nil]
  rfl

theorem hbPending_stopped (s : St) (h : Inv s) :
    (stoppedPending s).filter (fun t => t.kind != TKind.reconnect) = [] := by
  refine filter_nil_of_false _ _ ?_
  intro t ht
  have := stoppedPending_kind s h t ht
  simp [this]

theorem hbPending_close (s : St) (h : Inv s) (w code : Nat) :
    hbPending (deliver (Ev.closeEv w code) s) = [] := by
  have h0 : Inv (setSock w ReadyState.closed s) := inv_of_fields s _ h rfl rfl rfl rfl rfl
  obtain ⟨_, _, _, _, hp, _, _, _, _, _⟩ :=
    oncloseH_fields code (setSock w ReadyState.closed s)
  show hbPending (oncloseH code (setSock w ReadyState.closed s)) = []
  unfold hbPending
  rw [hp, List.filter_append, hbPending_stopped _ h0]
  simp

theorem hbPending_err (s : St) (h : Inv s) (w : Nat) :
    hbPending (deliver (Ev.errEv w) s) = [] := by
  obtain ⟨_, hp, _, _, _, _, _, _, _, _⟩ := onerrorH_fields s
  show hbPending (onerrorH s) = []
  unfold hbPending
  rw [hp]
  exact hbPending_stopped s h

theorem reconPending_err (s : St) (h : Inv s) (w : Nat) :
    reconPending (deliver (Ev.errEv w) s) = reconPending s := by
  obtain ⟨_, hp, _, _, _, _, _, _, _, _⟩ := onerrorH_fields s
  show reconPending (onerrorH s) = reconPending s
  unfold reconPending
  rw [hp]
  exact recon_stoppedPending s h

theorem hbPending_disc (s : St) (h : Inv s) (w : Nat) (hc : s.conn = some w) :
    hbPending (disconnect s) = [] := by
  obtain ⟨_, _, _, hp, _, _, _, _, _, _⟩ := disconnect_some s w hc
  unfold hbPending
  rw [hp]
  exact hbPending_stopped s h

theorem reconPending_disc (s : St) (h : Inv s) (w : Nat) (hc : s.conn = some w) :
    reconPending (disconnect s) = reconPending s := by
  obtain ⟨_, _, _, hp, _, _, _, _, _, _⟩ := disconnect_some s w hc
  unfold reconPending
  rw [hp]
  exact recon_stoppedPending s h

theorem ptPending_pong (s : St) (h : Inv s) (w : Nat) :
    ptPending (deliver (Ev.msgEv w "pong") s) = [] ∧
    (deliver (Ev.msgEv w "pong") s).pongReceived = true := by
  obtain ⟨_, hp, hpr, _, _, _, _, _, _⟩ := onmessageH_pong s "pong" rfl
  refine ⟨?_, hpr⟩
  show ptPending (onmessageH "pong" s) = []
  unfold ptPending
  rw [hp]
  refine filter_nil_of_false _ _ ?_
  intro t ht
  obtain ⟨hmem, hkeep⟩ := List.mem_filter.1 ht
  by_cases hk : t.kind = TKind.pongTimeout
  · exact absurd (h.ptTracked t hmem hk) ((keepB_eq_true _ t).1 hkeep)
  · simpa using hk


/-- C1 counterexample: after two rapid connect() calls (socket 0 then
socket 1) and the current transport 1 opening, the late close notification
of the superseded socket 0 is NOT ignored: before it, the current
Connection is socket 1 with a running heartbeat and no reconnect pending;
after it, conn has been cleared, the heartbeat timers are gone, and a
reconnect has been scheduled — contradicting the claim that a stale
transport's events cause no state mutation. -/
theorem C1_counterexample :
    (runTrace staleTracePre init).conn = some 1 ∧
    hbPending (runTrace staleTracePre init) ≠ [] ∧
    reconPending (runTrace staleTracePre init) = [] ∧
    (runTrace staleTrace init).conn = none ∧
    hbPending (runTrace staleTrace init) = [] ∧
    (reconPending (runTrace staleTrace init)).length = 1 := by decide

/-- C1 (amended): the close handler has no identity guard — a close
notification from ANY transport, current or superseded, unconditionally
clears conn, nulls both heartbeat handles, and schedules exactly one more
reconnect attempt. -/
theorem C1_stale_close_mutates (tr : List Step) (w code : Nat) :
    (deliver (Ev.closeEv w code) (runTrace tr init)).conn = none ∧
    (deliver (Ev.closeEv w code) (runTrace tr init)).pingInterval = none ∧
    (deliver (Ev.closeEv w code) (runTrace tr init)).pongTimeoutId = none ∧
    (reconPending (deliver (Ev.closeEv w code) (runTrace tr init))).length
      = (reconPending (runTrace tr init)).length + 1 := by
  obtain ⟨_, hc, hpi, hpt, _, _, _, _, _, _⟩ :=
    oncloseH_fields code (setSock w ReadyState.closed (runTrace tr init))
  refine ⟨hc, hpi, hpt, ?_⟩
  rw [reconPending_close _ (inv_runTrace tr) w code]
  simp

/-- C2: connect, then a server that sends nothing: the client sends
exactly one "ping" frame, at t = 60000 after open, and no close has
happened by then; at t = 65000 the pong timeout fires and the client
closes the transport locally with code 1008 and reason "Pong timeout". -/
theorem C2_silent_server_timeout :
    (runTrace silentTrace init).sentFrames = [(60000, 0, "ping")] ∧
    (runTrace silentTrace init).closeCalls = [(65000, 0, some (1008, "Pong timeout"))] ∧
    (runTrace silentTrace init).now = 65000 ∧
    (runTrace pingSentTrace init).sentFrames = [(60000, 0, "ping")] ∧
    (runTrace pingSentTrace init).closeCalls = [] := by decide

/-- C3: a heartbeat tick (sendPing) sends exactly one "ping" frame, sets
pongReceived (the spec's awaitingPong) to false and arms one 5000 ms
pong-timeout timer if and only if the transport is open; otherwise the
tick is a complete no-op.  The interval driving the ticks is (re)armed
with period PING_INTERVAL_MS = 60000. -/
theorem C3_heartbeat_tick (s : St) (w : Nat) :
    (s.conn = some w → sockState s.socks w = ReadyState.opened →
      (sendPing s).sentFrames = s.sentFrames ++ [(s.now, w, "ping")] ∧
      (sendPing s).pongReceived = false ∧
      (sendPing s).pending
        = s.pending ++ [⟨s.nextTimerId, TKind.pongTimeout, s.now + PONG_TIMEOUT_MS⟩] ∧
      (sendPing s).pongTimeoutId = some s.nextTimerId) ∧
    (s.conn = none → sendPing s = s) ∧
    (s.conn = some w → sockState s.socks w ≠ ReadyState.opened → sendPing s = s) ∧
    (startPingPong s).pending
      = stoppedPending s ++ [⟨s.nextTimerId, TKind.interval, s.now + PING_INTERVAL_MS⟩] ∧
    (∀ i d, fireTimer ⟨i, TKind.interval, d⟩ s
      = sendPing { s with pending := s.pending.map (rearmT i) }) ∧
    (∀ i (u : Timer), u.id = i → (rearmT i u).due = u.due + PING_INTERVAL_MS) ∧
    PING_INTERVAL_MS = 60000 ∧ PONG_TIMEOUT_MS = 5000 := by
  refine ⟨?_, ?_, ?_, ?_, ?_, ?_, rfl, rfl⟩
  · intro h1 h2
    obtain ⟨a, b, c, d, _, _, _, _, _⟩ := sendPing_open s w h1 h2
    exact ⟨a, b, c, d⟩
  · intro h1
    exact sendPing_noConn s h1
  · intro h1 h2
    exact sendPing_notOpen s w h1 h2
  · exact (startPingPong_fields s).1
  · intro i d
    rfl
  · intro i u hu
    exact rearmT_due_of_eq i u hu

/-- C3 witness: the open-transport branch at the concrete state reached by
connect + open, and the no-op branch on the same state with conn null. -/
theorem C3_witness :
    (sendPing (runTrace openTrace init)).pongReceived = false ∧
    sendPing { runTrace openTrace init with conn := none }
      = { runTrace openTrace init with conn := none } := by
  constructor
  · exact ((C3_heartbeat_tick (runTrace openTrace init) 0).1 (by decide) (by decide)).2.1
  · exact (C3_heartbeat_tick { runTrace openTrace init with conn := none } 0).2.1 rfl

/-- C4: every inbound text frame produces exactly one "Received:" log line
(logged before the pong check); a "pong" payload additionally cancels any
pending pong-timeout timer and sets pongReceived true, whether or not a
ping was outstanding; any other payload leaves the heartbeat state
untouched. -/
theorem C4_onmessage (tr : List Step) (w : Nat) (data : String) :
    (deliver (Ev.msgEv w data) (runTrace tr init)).log
        = logList ("Received: " ++ data) (runTrace tr init).log ∧
    (data = "pong" →
      ptPending (deliver (Ev.msgEv w data) (runTrace tr init)) = [] ∧
      (deliver (Ev.msgEv w data) (runTrace tr init)).pongReceived = true) ∧
    (data ≠ "pong" →
      (deliver (Ev.msgEv w data) (runTrace tr init)).pending
          = (runTrace tr init).pending ∧
      (deliver (Ev.msgEv w data) (runTrace tr init)).pongReceived
          = (runTrace tr init).pongReceived ∧
      (deliver (Ev.msgEv w data) (runTrace tr init)).pongTimeoutId
          = (runTrace tr init).pongTimeoutId ∧
      (deliver (Ev.msgEv w data) (runTrace tr init)).pingInterval
          = (runTrace tr init).pingInterval) := by
  by_cases hd : data = "pong"
  · obtain ⟨hlog, _, _, _, _, _, _, _, _⟩ := onmessageH_pong (runTrace tr init) data hd
    refine ⟨hlog, ?_, ?_⟩
    · intro _
      subst hd
      exact ptPending_pong (runTrace tr init) (inv_runTrace tr) w
    · intro hne
      exact absurd hd hne
  · rw [show deliver (Ev.msgEv w data) (runTrace tr init)
        = onmessageH data (runTrace tr init) from rfl, onmessageH_ne _ data hd]
    refine ⟨rfl, ?_, ?_⟩
    · intro hp
      exact absurd hp hd
    · intro _
      exact ⟨rfl, rfl, rfl, rfl⟩

/-- C4 witness: a "pong" arriving while a ping is outstanding cancels the
pending pong timeout and marks the pong received; a non-"pong" frame
leaves the pending timers unchanged. -/
theorem C4_witness :
    ptPending (deliver (Ev.msgEv 0 "pong") (runTrace pingSentTrace init)) = [] ∧
    (deliver (Ev.msgEv 0 "hello") (runTrace pingSentTrace init)).pending
      = (runTrace pingSentTrace init).pending := by
  constructor
  · exact ((C4_onmessage pingSentTrace 0 "pong").2.1 rfl).1
  · exact ((C4_onmessage pingSentTrace 0 "hello").2.2 (by decide)).1

/-- C5: every close notification — the single path all disconnections
(remote close, error-then-close, pong-timeout close, user disconnect)
funnel through — appends exactly one reconnect timer, due exactly
RECONNECT_DELAY_MS = 5000 ms after the notification, independent of any
history (no backoff, no attempt limit); firing a reconnect timer calls
connect(); disconnect() itself schedules nothing. -/
theorem C5_reconnect_policy (tr : List Step) (w code : Nat) :
    reconPending (deliver (Ev.closeEv w code) (runTrace tr init))
      = reconPending (runTrace tr init)
          ++ [⟨(runTrace tr init).nextTimerId, TKind.reconnect,
               (runTrace tr init).now + RECONNECT_DELAY_MS⟩] ∧
    RECONNECT_DELAY_MS = 5000 ∧
    (∀ i d (x : St), fireTimer ⟨i, TKind.reconnect, d⟩ x = connect (clearTimer i x)) ∧
    ((runTrace tr init).conn = some w →
      reconPending (disconnect (runTrace tr init)) = reconPending (runTrace tr init)) := by
  refine ⟨reconPending_close _ (inv_runTrace tr) w code, rfl, ?_, ?_⟩
  · intro i d x
    rfl
  · intro hc
    exact reconPending_disc _ (inv_runTrace tr) w hc

/-- C5 witness: applying the policy at the connected state reached by
connect + open: disconnect() itself leaves the reconnect set unchanged,
while a close notification appends exactly one reconnect timer. -/
theorem C5_witness :
    reconPending (disconnect (runTrace openTrace init))
      = reconPending (runTrace openTrace init) ∧
    reconPending (deliver (Ev.closeEv 0 1000) (runTrace openTrace init))
      = reconPending (runTrace openTrace init)
          ++ [⟨(runTrace openTrace init).nextTimerId, TKind.reconnect,
               (runTrace openTrace init).now + RECONNECT_DELAY_MS⟩] := by
  constructor
  · exact (C5_reconnect_policy openTrace 0 1000).2.2.2 (by decide)
  · exact (C5_reconnect_policy openTrace 0 1000).1

/-- C6: on every trace, teardown — a close notification, or a user
disconnect() while a Connection is present — cancels both heartbeat
timers: afterwards exactly zero heartbeat timers are pending and both
handles are null. -/
theorem C6_no_leaked_timers (tr : List Step) (w code w2 : Nat) :
    hbPending (deliver (Ev.closeEv w code) (runTrace tr init)) = [] ∧
    (deliver (Ev.closeEv w code) (runTrace tr init)).pingInterval = none ∧
    (deliver (Ev.closeEv w code) (runTrace tr init)).pongTimeoutId = none ∧
    ((runTrace tr init).conn = some w2 →
      hbPending (disconnect (runTrace tr init)) = [] ∧
      (disconnect (runTrace tr init)).pingInterval = none ∧
      (disconnect (runTrace tr init)).pongTimeoutId = none) := by
  obtain ⟨_, _, hpi, hpt, _, _, _, _, _, _⟩ :=
    oncloseH_fields code (setSock w ReadyState.closed (runTrace tr init))
  refine ⟨hbPending_close _ (inv_runTrace tr) w code, hpi, hpt, ?_⟩
  intro hc
  obtain ⟨_, hdi, hdt, _, _, _, _, _, _, _⟩ := disconnect_some _ w2 hc
  exact ⟨hbPending_disc _ (inv_runTrace tr) w2 hc, hdi, hdt⟩

/-- C6 witness: at the connected state (heartbeat interval pending), a
close notification and a user disconnect both leave zero heartbeat
timers. -/
theorem C6_witness :
    hbPending (runTrace openTrace init) ≠ [] ∧
    hbPending (deliver (Ev.closeEv 0 1000) (runTrace openTrace init)) = [] ∧
    hbPending (disconnect (runTrace openTrace init)) = [] := by
  refine ⟨by decide, (C6_no_leaked_timers openTrace 0 1000 0).1, ?_⟩
  exact ((C6_no_leaked_timers openTrace 0 1000 0).2.2.2 (by decide)).1

/-- C7 counterexample: right after the first heartbeat tick,
pongTimeoutId is non-null while pongReceived (the spec's awaitingPong) is
false — refuting the claimed invariant that the handle is non-null only
while awaitingPong is true and that the two are cleared together. -/
theorem C7_counterexample :
    (runTrace pingSentTrace init).pongTimeoutId ≠ none ∧
    (runTrace pingSentTrace init).pongReceived = false := by decide

/-- C7 (amended): the invariant that actually holds, on every reachable
state: a pong-timeout TIMER is pending only while pongReceived is false;
the pongTimeoutId variable itself may retain a stale id after the timer
fired or was cancelled, so the handle variable and pongReceived are not
cleared together. -/
theorem C7_pt_pending_only_awaiting (tr : List Step) :
    ∀ t ∈ (runTrace tr init).pending, t.kind = TKind.pongTimeout →
      (runTrace tr init).pongReceived = false :=
  (inv_runTrace tr).ptAwaits

/-- C7 witness: the pong-timeout timer armed by the first heartbeat tick
is pending, and pongReceived is indeed false there. -/
theorem C7_witness : (runTrace pingSentTrace init).pongReceived = false :=
  C7_pt_pending_only_awaiting pingSentTrace
    ⟨2, TKind.pongTimeout, 65000⟩ (by decide) rfl

/-- C8 counterexample: with the heartbeat running, the error notification
ALONE already cancels the heartbeat timers (the source's onerror calls
stopPingPong), refuting the claim that error does not tear down the
timers and only the subsequent close does. -/
theorem C8_counterexample :
    hbPending (runTrace openTrace init) ≠ [] ∧
    hbPending (deliver (Ev.errEv 0) (runTrace openTrace init)) = [] ∧
    (deliver (Ev.errEv 0) (runTrace openTrace init)).pingInterval = none := by decide

/-- C8 (amended): a mid-connection error notification logs exactly one
generic error line and leaves conn and any scheduled reconnect untouched,
but it DOES immediately cancel both heartbeat timers; the subsequent
close notification's stopPingPong is then a no-op. -/
theorem C8_error_teardown (tr : List Step) (w : Nat) :
    (deliver (Ev.errEv w) (runTrace tr init)).log
      = logList "WebSocket Error occurred." (runTrace tr init).log ∧
    (deliver (Ev.errEv w) (runTrace tr init)).conn = (runTrace tr init).conn ∧
    (deliver (Ev.errEv w) (runTrace tr init)).pingInterval = none ∧
    (deliver (Ev.errEv w) (runTrace tr init)).pongTimeoutId = none ∧
    hbPending (deliver (Ev.errEv w) (runTrace tr init)) = [] ∧
    reconPending (deliver (Ev.errEv w) (runTrace tr init))
      = reconPending (runTrace tr init) := by
  obtain ⟨hlog, _, hpi, hpt, _, _, _, hconn, _, _⟩ := onerrorH_fields (runTrace tr init)
  exact ⟨hlog, hconn, hpi, hpt, hbPending_err _ (inv_runTrace tr) w,
    reconPending_err _ (inv_runTrace tr) w⟩

/-- C9: a user send attempt whose text trims to empty transmits no frame
and logs nothing (the state is completely unchanged); text that is
non-empty after trimming, sent over an open Connection, transmits exactly
one frame whose payload is the literal untrimmed text and logs one
"Sending:" line. -/
theorem C9_send_behavior (s : St) (w : Nat) :
    (jsTrim s.textField = "" → sendClick s = s) ∧
    (jsTrim s.textField ≠ "" → s.conn = some w →
      sockState s.socks w = ReadyState.opened →
      (sendClick s).sentFrames = s.sentFrames ++ [(s.now, w, s.textField)] ∧
      (sendClick s).log = logList ("Sending: " ++ s.textField) s.log) := by
  refine ⟨fun h => sendClick_empty s h, ?_⟩
  intro h1 h2 h3
  obtain ⟨a, b, _, _, _⟩ := sendClick_send s w h1 h2 h3
  exact ⟨a, b⟩

/-- C9 witness: whitespace-only text is a full no-op; "hi" over the open
connection transmits exactly one frame with untrimmed payload "hi". -/
theorem C9_witness :
    sendClick (runTrace [Step.typeText "   "] init)
      = runTrace [Step.typeText "   "] init ∧
    (sendClick (runTrace (openTrace ++ [Step.typeText "hi"]) init)).sentFrames
      = (runTrace (openTrace ++ [Step.typeText "hi"]) init).sentFrames
        ++ [((runTrace (openTrace ++ [Step.typeText "hi"]) init).now, 0,
             (runTrace (openTrace ++ [Step.typeText "hi"]) init).textField)] := by
  constructor
  · exact (C9_send_behavior (runTrace [Step.typeText "   "] init) 0).1 (by decide)
  · exact ((C9_send_behavior (runTrace (openTrace ++ [Step.typeText "hi"]) init) 0).2
      (by decide) (by decide) (by decide)).1

/-- C10: a send attempt with text that is non-empty after trimming while
conn is null dereferences the null connection: the handler throws (crash
flag set) rather than silently doing nothing — no frame is sent and the
text field is not cleared; only the empty-text case is guarded. -/
theorem C10_send_null_conn (s : St) (h1 : s.conn = none) (h2 : jsTrim s.textField ≠ "") :
    (sendClick s).crashed = true ∧
    (sendClick s).sentFrames = s.sentFrames ∧
    (sendClick s).textField = s.textField := by
  obtain ⟨a, b, c, _⟩ := sendClick_nullConn s h2 h1
  exact ⟨a, b, c⟩

/-- C10 witness: typing "hi" while disconnected and clicking Send crashes
the handler. -/
theorem C10_witness :
    (sendClick (runTrace [Step.typeText "hi"] init)).crashed = true :=
  (C10_send_null_conn (runTrace [Step.typeText "hi"] init) (by decide) (by decide)).1

end WsClient
